import Mathlib

/-!
Verification of the voting backend in `backend/app.py`.

The application stores votes in one of two relational stores (a local SQLite
file or a networked Postgres database), selected once at startup by
`USE_POSTGRES = bool(DB_HOST)`.  We embed the logical storage state as the
list of successfully stored candidate strings of each variant together with
the immutable selection flag, embed JSON request bodies as a small inductive
type with Python truthiness, membership and subscript semantics, and embed
each Flask handler as a function from request data and state to a response
and a new state.  Exceptions that Flask would surface as an HTTP 500 are
modelled explicitly.
-/

/-- A JSON value, as produced by `request.get_json`.  Objects are embedded as
association lists; JSON parsing never produces duplicate keys. -/
inductive Json where
  | null : Json
  | bool (b : Bool) : Json
  | num (n : Int) : Json
  | str (s : String) : Json
  | arr (elems : List Json) : Json
  | obj (kvs : List (String × Json)) : Json

/-- Python truthiness of a JSON value: `None`, `False`, `0`, `""`, `[]` and
`{}` (written `\x7b\x7d`) are falsy, everything else is truthy. -/
def jsonTruthy : Json → Bool
  | .null => false
  | .bool b => b
  | .num n => n != 0
  | .str s => s != ""
  | .arr elems => !elems.isEmpty
  | .obj kvs => !kvs.isEmpty

/-- Whether the character list `needle` occurs at the head of `hay`. -/
def listLeadsWith : List Char → List Char → Bool
  | [], _ => true
  | _ :: _, [] => false
  | a :: as, b :: bs => a == b && listLeadsWith as bs

/-- Whether `needle` occurs contiguously anywhere in `hay`. -/
def listContainsRun (needle : List Char) : List Char → Bool
  | [] => listLeadsWith needle []
  | c :: rest => listLeadsWith needle (c :: rest) || listContainsRun needle rest

/-- Python `needle in hay` for strings: substring containment. -/
def pyInStr (needle hay : String) : Bool :=
  listContainsRun needle.toList hay.toList

/-- Python `key in data` on a JSON value.  For a string it is substring
containment, for an array element equality (a string never equals a
non-string), for an object key membership; for `None`, booleans and numbers
Python raises `TypeError`, modelled as `Except.error`. -/
def jsonContains (key : String) : Json → Except Unit Bool
  | .str s => .ok (pyInStr key s)
  | .arr elems => .ok (elems.any (fun j => match j with | .str t => t == key | _ => false))
  | .obj kvs => .ok (kvs.any (fun kv => kv.1 == key))
  | _ => .error ()

/-- Python `data[key]` on a JSON value: only an object supports a string
subscript (`KeyError` when absent); every other shape raises `TypeError`.
Both exceptions are modelled as `Except.error`. -/
def jsonSubscript (key : String) : Json → Except Unit Json
  | .obj kvs =>
      match kvs.lookup key with
      | some v => .ok v
      | none => .error ()
  | _ => .error ()

/-- Errors raised by the database drivers while inserting a row. -/
inductive DbError where
  | notNullViolation : DbError
  | unsupportedType : DbError
  | typeMismatch : DbError
deriving DecidableEq

/-- Binding a Python value as the `candidate` parameter of the SQLite
`INSERT`: `None` becomes SQL `NULL` and violates the `NOT NULL` constraint;
lists and dicts are unsupported bind types (`sqlite3.InterfaceError`);
numbers and booleans are stored as their text form under the column's TEXT
affinity. -/
def sqliteBind : Json → Except DbError String
  | .null => .error .notNullViolation
  | .bool b => .ok (if b then "1" else "0")
  | .num n => .ok (toString n)
  | .str s => .ok s
  | .arr _ => .error .unsupportedType
  | .obj _ => .error .unsupportedType

/-- Binding a Python value as the `candidate` parameter of the Postgres
`INSERT` into a `VARCHAR NOT NULL` column: `None` violates `NOT NULL`;
booleans, numbers and arrays fail the column type check; dicts cannot be
adapted by the driver. -/
def pgBind : Json → Except DbError String
  | .null => .error .notNullViolation
  | .bool _ => .error .typeMismatch
  | .num _ => .error .typeMismatch
  | .str s => .ok s
  | .arr _ => .error .typeMismatch
  | .obj _ => .error .unsupportedType

/-- The process-wide storage state: the backend-selection flag fixed at
startup and the rows of the `votes` table of each physical store (only the
`candidate` column matters to the application; `id` is assigned by the
store). -/
structure St where
  usePostgres : Bool
  sqliteDb : List String
  pgDb : List String
deriving DecidableEq

/-- The rows of the store selected at startup. -/
def St.activeDb (st : St) : List String :=
  if st.usePostgres then st.pgDb else st.sqliteDb

/-- `USE_POSTGRES = bool(DB_HOST)`: an unset or empty `DB_HOST` is falsy. -/
def USE_POSTGRES (dbHost : Option String) : Bool :=
  match dbHost with
  | none => false
  | some h => h != ""

/-- `insert_vote(candidate)`: append one row to the store selected at
startup, through the variant's own parameter binding. -/
def insert_vote (v : Json) (st : St) : Except DbError St :=
  if st.usePostgres then
    match pgBind v with
    | .ok s => .ok { st with pgDb := st.pgDb ++ [s] }
    | .error e => .error e
  else
    match sqliteBind v with
    | .ok s => .ok { st with sqliteDb := st.sqliteDb ++ [s] }
    | .error e => .error e

/-- `SELECT candidate, COUNT(*) FROM votes GROUP BY candidate` over a list of
rows: one pair per distinct candidate, carrying its number of rows. -/
def aggregate (db : List String) : List (String × Nat) :=
  db.dedup.map (fun c => (c, (db.filter (fun x => x == c)).length))

/-- `get_results()`: the group-by-count query against the store selected at
startup, returned as a candidate-to-count mapping. -/
def get_results (st : St) : List (String × Nat) :=
  aggregate st.activeDb

/-- The count `get_results` reports for one candidate: `some n` when the
candidate is a key of the mapping, `none` when it is absent. -/
def resultFor (st : St) (c : String) : Option Nat :=
  (get_results st).lookup c

/-- Response of the JSON vote endpoint `/api/vote`. -/
inductive ApiResp where
  | badRequest : ApiResp
  | okStatus : ApiResp
  | serverError : ApiResp
deriving DecidableEq

/-- HTTP status code of an `/api/vote` response. -/
def ApiResp.status : ApiResp → Nat
  | .badRequest => 400
  | .okStatus => 200
  | .serverError => 500

/-- Response body of an `/api/vote` response (the 500 body is Flask's
generic error page, abbreviated here). -/
def ApiResp.bodyText : ApiResp → String
  | .badRequest => "\x7b\"error\": \"option required\"\x7d"
  | .okStatus => "\x7b\"status\": \"ok\"\x7d"
  | .serverError => "Internal Server Error"

/-- `POST /api/vote`: `data = request.get_json(silent=True)` is `none` when
the body is absent or not valid JSON; `if not data or 'option' not in data`
returns 400; otherwise `insert_vote(data['option'])` runs and any raised
exception surfaces as a 500. -/
def api_vote (body : Option Json) (st : St) : ApiResp × St :=
  match body with
  | none => (.badRequest, st)
  | some data =>
      if !jsonTruthy data then (.badRequest, st)
      else
        match jsonContains "option" data with
        | .error _ => (.serverError, st)
        | .ok false => (.badRequest, st)
        | .ok true =>
            match jsonSubscript "option" data with
            | .error _ => (.serverError, st)
            | .ok v =>
                match insert_vote v st with
                | .error _ => (.serverError, st)
                | .ok st2 => (.okStatus, st2)

/-- Response of the form endpoints `/` and `/vote`. -/
inductive PageResp where
  | formPage : PageResp
  | resultPage (selected : String) (results : List (String × Nat)) : PageResp
  | redirectRoot : PageResp
  | serverError : PageResp

/-- `POST /`: `provider = request.form.get('option')`; a truthy value is
inserted and the result page rendered with current results; a missing or
empty field falls through to rendering the form page. -/
def index_post (opt : Option String) (st : St) : PageResp × St :=
  match opt with
  | some provider =>
      if provider != "" then
        match insert_vote (Json.str provider) st with
        | .ok st2 => (.resultPage provider (get_results st2), st2)
        | .error _ => (.serverError, st)
      else (.formPage, st)
  | none => (.formPage, st)

/-- `POST /vote`: a truthy `option` is inserted and the result page
rendered; otherwise a redirect to `/`. -/
def vote_post (opt : Option String) (st : St) : PageResp × St :=
  match opt with
  | some selected =>
      if selected != "" then
        match insert_vote (Json.str selected) st with
        | .ok st2 => (.resultPage selected (get_results st2), st2)
        | .error _ => (.serverError, st)
      else (.redirectRoot, st)
  | none => (.redirectRoot, st)

/-- `GET /`: renders the form page, touching no storage. -/
def index_get (st : St) : PageResp × St :=
  (.formPage, st)

/-- `GET /api/results`: returns `get_results()` as JSON. -/
def api_results (st : St) : List (String × Nat) × St :=
  (get_results st, st)

/-- `GET /health`: returns `("OK", 200)` unconditionally. -/
def health (st : St) : (String × Nat) × St :=
  (("OK", 200), st)

/-- Schema-level state of one physical store: whether the `votes` table
exists, and its rows when it does. -/
structure TableStore where
  tableExists : Bool
  rows : List String
deriving DecidableEq

/-- `CREATE TABLE IF NOT EXISTS votes (id ..., candidate ... NOT NULL)`:
creates an empty table when absent, changes nothing when present. -/
def createTableIfAbsent (s : TableStore) : TableStore :=
  if s.tableExists then s else { tableExists := true, rows := [] }

/-- `init_sqlite()`: create the local votes table if it does not exist. -/
def init_sqlite (s : TableStore) : TableStore :=
  createTableIfAbsent s

/-- Startup error raised by `init_postgres` when the driver is absent. -/
inductive StartupError where
  | psycopg2Missing : StartupError
deriving DecidableEq

/-- `init_postgres()`: raises `RuntimeError` when `psycopg2` is `None`,
otherwise creates the remote votes table if it does not exist. -/
def init_postgres (hasPsycopg2 : Bool) (s : TableStore) : Except StartupError TableStore :=
  if hasPsycopg2 then .ok (createTableIfAbsent s) else .error .psycopg2Missing

/-- The backend variant a process runs with. -/
inductive Backend where
  | postgres : Backend
  | sqlite : Backend
deriving DecidableEq

/-- The module-level startup dispatch: `init_postgres()` when `USE_POSTGRES`
else `init_sqlite()`; an exception aborts the process start. -/
def startup_init (dbHost : Option String) (hasPsycopg2 : Bool)
    (pgStore sqStore : TableStore) : Except StartupError (Backend × TableStore) :=
  if USE_POSTGRES dbHost then
    match init_postgres hasPsycopg2 pgStore with
    | .ok s => .ok (.postgres, s)
    | .error e => .error e
  else .ok (.sqlite, init_sqlite sqStore)

/-! ### Helper lemmas -/

/-- Looking a key up in a list tagged with a function of each element. -/
theorem lookup_map_pair (l : List String) (f : String → Nat) (c : String) :
    (l.map (fun x => (x, f x))).lookup c = if c ∈ l then some (f c) else none := by
  induction l with
  | nil => rfl
  | cons a t ih =>
    by_cases hca : c = a
    · subst hca
      simp [List.lookup]
    · have hb : (c == a) = false := by simp [hca]
      simp [List.lookup, hb, ih, hca]

/-- Looking a candidate up in the aggregated results of a row list. -/
theorem lookup_aggregate (db : List String) (c : String) :
    (aggregate db).lookup c =
      if c ∈ db then some ((db.filter (fun x => x == c)).length) else none := by
  simp [aggregate, lookup_map_pair, List.mem_dedup]

/-- A candidate with no rows has an empty filter. -/
theorem filter_beq_nil (db : List String) (c : String) (h : c ∉ db) :
    db.filter (fun x => x == c) = [] := by
  induction db with
  | nil => rfl
  | cons a t ih =>
    have ha : ¬ a = c := fun hac => h (hac ▸ List.mem_cons_self a t)
    have ht : c ∉ t := fun hct => h (List.mem_cons_of_mem a hct)
    simp [List.filter_cons, ha, ih ht]

/-- Appending one row changes exactly the appended candidate's row count. -/
theorem countAppend (db : List String) (C c : String) :
    ((db ++ [C]).filter (fun x => x == c)).length =
      (db.filter (fun x => x == c)).length + (if C = c then 1 else 0) := by
  by_cases h : C = c <;> simp [List.filter_append, h]

/-- Inserting a string always succeeds, appending to the active store. -/
theorem insert_vote_str (C : String) (st : St) :
    insert_vote (Json.str C) st =
      Except.ok (if st.usePostgres then { st with pgDb := st.pgDb ++ [C] }
                 else { st with sqliteDb := st.sqliteDb ++ [C] }) := by
  cases h : st.usePostgres <;> simp [insert_vote, pgBind, sqliteBind, h]

/-- The state reached by a string insert: active rows gain the candidate,
the selection flag is untouched. -/
theorem insert_vote_str_active (C : String) (st st' : St)
    (h : insert_vote (Json.str C) st = Except.ok st') :
    st'.activeDb = st.activeDb ++ [C] ∧ st'.usePostgres = st.usePostgres := by
  rw [insert_vote_str] at h
  cases hp : st.usePostgres <;> rw [hp] at h <;> simp at h <;>
    simp [← h, St.activeDb, hp]

/-- A key absent from an association list fails the membership scan. -/
theorem lookup_none_any_false (kvs : List (String × Json)) (key : String)
    (h : kvs.lookup key = none) : kvs.any (fun kv => kv.1 == key) = false := by
  induction kvs with
  | nil => rfl
  | cons a t ih =>
    obtain ⟨k, v⟩ := a
    cases hk : (key == k) with
    | true => simp [List.lookup, hk] at h
    | false =>
      simp only [List.lookup, hk] at h
      have hne : ¬ k = key := fun he => by simp [he] at hk
      simp [List.any_cons, hne, ih h]

/-- A key present in an association list passes the membership scan. -/
theorem lookup_some_any_true (kvs : List (String × Json)) (key : String) (v : Json)
    (h : kvs.lookup key = some v) : kvs.any (fun kv => kv.1 == key) = true := by
  induction kvs with
  | nil => simp [List.lookup] at h
  | cons a t ih =>
    obtain ⟨k, w⟩ := a
    cases hk : (key == k) with
    | true =>
      have he : key = k := by simpa using hk
      simp [List.any_cons, he.symm]
    | false =>
      simp only [List.lookup, hk] at h
      simp [List.any_cons, ih h]

/-- Any successful insert keeps the selection flag and the rows of the
variant that was not selected. -/
theorem insert_vote_preserves (v : Json) (st st' : St)
    (h : insert_vote v st = Except.ok st') :
    st'.usePostgres = st.usePostgres ∧
    (st.usePostgres = true → st'.sqliteDb = st.sqliteDb) ∧
    (st.usePostgres = false → st'.pgDb = st.pgDb) := by
  unfold insert_vote at h
  cases hp : st.usePostgres <;> rw [hp] at h <;> simp only [Bool.false_eq_true, if_false, if_true] at h
  · cases hb : sqliteBind v <;> rw [hb] at h <;> simp at h
    simp [← h, hp]
  · cases hb : pgBind v <;> rw [hb] at h <;> simp at h
    simp [← h, hp]

/-- Creating the table marks it as existing. -/
theorem createTable_tableExists (t : TableStore) :
    (createTableIfAbsent t).tableExists = true := by
  cases h : t.tableExists <;> simp [createTableIfAbsent, h]

/-- Creating the table is a no-op once it exists. -/
theorem createTable_noop (t : TableStore) (h : t.tableExists = true) :
    createTableIfAbsent t = t := by
  simp [createTableIfAbsent, h]

/-- Appending a non-empty row preserves an all-non-empty row list. -/
theorem append_nonempty (db : List String) (p : String)
    (hdb : ∀ c ∈ db, c ≠ "") (hp : p ≠ "") :
    ∀ c ∈ db ++ [p], c ≠ "" := by
  intro c hc
  rcases List.mem_append.mp hc with h | h
  · exact hdb c h
  · rw [List.mem_singleton.mp h]
    exact hp

/-! ### Claims -/

/-- C7: when no votes are stored, `get_results` returns the empty mapping. -/
theorem get_results_empty (st : St) (h : st.activeDb = []) : get_results st = [] := by
  simp [get_results, h, aggregate]

/-- Witness for C7 at a concrete empty state. -/
theorem get_results_empty_witness : get_results ⟨false, [], []⟩ = [] :=
  get_results_empty ⟨false, [], []⟩ rfl

/-- C8: the read endpoints `GET /`, `GET /api/results` and `GET /health`
leave the stored votes (the whole storage state) unchanged. -/
theorem read_endpoints_pure (st : St) :
    (index_get st).2 = st ∧ (api_results st).2 = st ∧ (health st).2 = st :=
  ⟨rfl, rfl, rfl⟩

/-- C10: every count in the mapping returned by `get_results` is at least 1,
and a candidate is a key of the mapping exactly when it has at least one
stored vote. -/
theorem get_results_counts_positive (st : St) :
    (∀ p ∈ get_results st, 1 ≤ p.2) ∧
    (∀ c : String, (∃ n, (c, n) ∈ get_results st) ↔ c ∈ st.activeDb) := by
  constructor
  · intro p hp
    simp only [get_results, aggregate, List.mem_map] at hp
    obtain ⟨c, hc, hpc⟩ := hp
    have hmem : c ∈ st.activeDb := List.mem_dedup.mp hc
    have hfil : c ∈ st.activeDb.filter (fun x => x == c) := by
      simp [List.mem_filter, hmem]
    rw [← hpc]
    exact List.length_pos_of_mem hfil
  · intro c
    constructor
    · rintro ⟨n, hn⟩
      simp only [get_results, aggregate, List.mem_map] at hn
      obtain ⟨x, hx, hxn⟩ := hn
      have hxc : x = c := congrArg Prod.fst hxn
      exact List.mem_dedup.mp (hxc ▸ hx)
    · intro hc
      exact ⟨(st.activeDb.filter (fun x => x == c)).length,
        List.mem_map.mpr ⟨c, List.mem_dedup.mpr hc, rfl⟩⟩

/-- Witness for C10 at a one-vote state. -/
theorem get_results_counts_positive_witness :
    1 ≤ ((("a" : String), (1 : Nat)) : String × Nat).2 ∧
    get_results ⟨false, ["a"], []⟩ = [("a", 1)] :=
  ⟨(get_results_counts_positive ⟨false, ["a"], []⟩).1 ("a", 1) (by decide), by decide⟩

/-- C1: for every non-empty candidate string and every storage state,
inserting the candidate and then reading the results yields a count one
greater than before for that candidate and an unchanged count (present or
absent alike) for every other candidate. -/
theorem insert_then_get_results (C : String) (hC : C ≠ "") (st st' : St)
    (h : insert_vote (Json.str C) st = Except.ok st') :
    resultFor st' C = some ((resultFor st C).getD 0 + 1) ∧
    ∀ c : String, c ≠ C → resultFor st' c = resultFor st c := by
  obtain ⟨hdb, _⟩ := insert_vote_str_active C st st' h
  constructor
  · rw [resultFor, get_results, lookup_aggregate, hdb,
      resultFor, get_results, lookup_aggregate]
    by_cases hm : C ∈ st.activeDb
    · simp [hm, countAppend]
    · simp [hm, countAppend, filter_beq_nil st.activeDb C hm]
  · intro c hc
    rw [resultFor, get_results, lookup_aggregate, hdb,
      resultFor, get_results, lookup_aggregate]
    by_cases hm : c ∈ st.activeDb
    · simp [hm, countAppend, Ne.symm hc]
    · have hnot : c ∉ st.activeDb ++ [C] := by
        simp [List.mem_append, hm, hc]
      simp [hm, hnot]

/-- Witness for C1: inserting "A" into the empty store. -/
theorem insert_then_get_results_witness :
    resultFor ⟨false, ["A"], []⟩ "A" = some ((resultFor ⟨false, [], []⟩ "A").getD 0 + 1) ∧
    resultFor ⟨false, ["A"], []⟩ "B" = resultFor ⟨false, [], []⟩ "B" := by
  have h := insert_then_get_results "A" (by decide) ⟨false, [], []⟩ ⟨false, ["A"], []⟩ rfl
  exact ⟨h.1, h.2 "B" (by decide)⟩

/-- C6: a form POST whose `option` field is missing or empty inserts
nothing: `POST /` re-renders the form page and `POST /vote` redirects to
`/`, both with storage unchanged. -/
theorem form_missing_option (opt : Option String) (st : St)
    (h : opt = none ∨ opt = some "") :
    index_post opt st = (PageResp.formPage, st) ∧
    vote_post opt st = (PageResp.redirectRoot, st) := by
  rcases h with h | h <;> subst h <;> exact ⟨rfl, rfl⟩

/-- Witness for C6 at a missing form field. -/
theorem form_missing_option_witness :
    index_post none ⟨false, ["x"], []⟩ = (PageResp.formPage, ⟨false, ["x"], []⟩) ∧
    vote_post none ⟨false, ["x"], []⟩ = (PageResp.redirectRoot, ⟨false, ["x"], []⟩) :=
  form_missing_option none ⟨false, ["x"], []⟩ (Or.inl rfl)

/-- C4: when the networked variant is selected and the driver is absent,
startup raises the fatal configuration error and in particular never yields
a running process on the embedded variant. -/
theorem postgres_driver_missing_fatal (dbHost : Option String)
    (pgStore sqStore : TableStore) (h : USE_POSTGRES dbHost = true) :
    startup_init dbHost false pgStore sqStore =
      Except.error StartupError.psycopg2Missing ∧
    ∀ s : TableStore,
      startup_init dbHost false pgStore sqStore ≠ Except.ok (Backend.sqlite, s) := by
  constructor
  · simp [startup_init, h, init_postgres]
  · intro s
    simp [startup_init, h, init_postgres]

/-- Witness for C4 with a host set and the driver missing. -/
theorem postgres_driver_missing_fatal_witness :
    startup_init (some "db.example.com") false ⟨false, []⟩ ⟨true, ["x"]⟩ =
      Except.error StartupError.psycopg2Missing :=
  (postgres_driver_missing_fatal (some "db.example.com") ⟨false, []⟩ ⟨true, ["x"]⟩
    (by decide)).1

/-- C9: schema initialization is idempotent for both variants: on a store
whose votes table exists it changes nothing (rows included), and running it
twice equals running it once. -/
theorem init_idempotent (s t : TableStore) (hs : s.tableExists = true) :
    init_sqlite (init_sqlite t) = init_sqlite t ∧
    init_sqlite s = s ∧
    init_postgres true s = Except.ok s ∧
    (∀ t' : TableStore, init_postgres true t = Except.ok t' →
      init_postgres true t' = Except.ok t') := by
  refine ⟨?_, ?_, ?_, ?_⟩
  · show createTableIfAbsent (createTableIfAbsent t) = createTableIfAbsent t
    exact createTable_noop _ (createTable_tableExists t)
  · exact createTable_noop s hs
  · simp [init_postgres, createTable_noop s hs]
  · intro t' ht'
    have : t' = createTableIfAbsent t := by
      simpa [init_postgres] using ht'.symm
    subst this
    simp [init_postgres, createTable_noop _ (createTable_tableExists t)]

/-- Witness for C9 on an existing table with one row. -/
theorem init_idempotent_witness :
    init_sqlite ⟨true, ["a"]⟩ = ⟨true, ["a"]⟩ ∧
    init_postgres true ⟨true, ["a"]⟩ = Except.ok ⟨true, ["a"]⟩ :=
  ⟨(init_idempotent ⟨true, ["a"]⟩ ⟨false, []⟩ rfl).2.1,
   (init_idempotent ⟨true, ["a"]⟩ ⟨false, []⟩ rfl).2.2.1⟩

/-- The JSON vote endpoint never changes the selection flag. -/
theorem api_vote_flag (body : Option Json) (st : St) :
    ((api_vote body st).2).usePostgres = st.usePostgres := by
  cases body with
  | none => rfl
  | some data =>
    simp only [api_vote]
    split
    · rfl
    · cases hc : jsonContains "option" data with
      | error e => simp [hc]
      | ok b =>
        cases b with
        | false => simp [hc]
        | true =>
          cases hsub : jsonSubscript "option" data with
          | error e => simp [hc, hsub]
          | ok v =>
            cases hins : insert_vote v st with
            | error e => simp [hc, hsub, hins]
            | ok st2 => simp [hc, hsub, hins, (insert_vote_preserves v st st2 hins).1]

/-- The form page endpoint never changes the selection flag. -/
theorem index_post_flag (opt : Option String) (st : St) :
    ((index_post opt st).2).usePostgres = st.usePostgres := by
  cases opt with
  | none => rfl
  | some p =>
    simp only [index_post]
    split
    · cases hins : insert_vote (Json.str p) st with
      | error e => simp [hins]
      | ok st2 => simp [hins, (insert_vote_preserves _ st st2 hins).1]
    · rfl

/-- The legacy vote endpoint never changes the selection flag. -/
theorem vote_post_flag (opt : Option String) (st : St) :
    ((vote_post opt st).2).usePostgres = st.usePostgres := by
  cases opt with
  | none => rfl
  | some p =>
    simp only [vote_post]
    split
    · cases hins : insert_vote (Json.str p) st with
      | error e => simp [hins]
      | ok st2 => simp [hins, (insert_vote_preserves _ st st2 hins).1]
    · rfl

/-- C5: backend selection is `bool(DB_HOST)` — a non-empty host selects
Postgres, an absent or empty host selects SQLite — the flag is never changed
by any operation, and `insert_vote` and `get_results` always act on the
variant chosen at startup. -/
theorem backend_selection_immutable (hHost : String) (hne : hHost ≠ "") :
    USE_POSTGRES (some hHost) = true ∧
    USE_POSTGRES none = false ∧
    USE_POSTGRES (some "") = false ∧
    (∀ (v : Json) (st st' : St), insert_vote v st = Except.ok st' →
        st'.usePostgres = st.usePostgres ∧
        (st.usePostgres = true → st'.sqliteDb = st.sqliteDb) ∧
        (st.usePostgres = false → st'.pgDb = st.pgDb)) ∧
    (∀ (body : Option Json) (st : St),
        ((api_vote body st).2).usePostgres = st.usePostgres) ∧
    (∀ (opt : Option String) (st : St),
        ((index_post opt st).2).usePostgres = st.usePostgres ∧
        ((vote_post opt st).2).usePostgres = st.usePostgres) ∧
    (∀ st : St, (st.usePostgres = true → get_results st = aggregate st.pgDb) ∧
        (st.usePostgres = false → get_results st = aggregate st.sqliteDb)) := by
  refine ⟨by simp [USE_POSTGRES, hne], rfl, rfl, insert_vote_preserves, api_vote_flag,
    fun opt st => ⟨index_post_flag opt st, vote_post_flag opt st⟩,
    fun st => ⟨fun h => ?_, fun h => ?_⟩⟩
  · simp [get_results, St.activeDb, h]
  · simp [get_results, St.activeDb, h]

/-- Witness for C5 at a concrete host value. -/
theorem backend_selection_immutable_witness :
    USE_POSTGRES (some "db") = true ∧ USE_POSTGRES none = false :=
  ⟨(backend_selection_immutable "db" (by decide)).1,
   (backend_selection_immutable "db" (by decide)).2.1⟩

/-- C2 counterexample: the body is a JSON object containing key `option`
(mapped to `null`), so the claim demands HTTP 200 `ok`; the code instead
raises a `NOT NULL` violation inside `insert_vote`, surfacing as a 500
server error, and stores nothing. -/
theorem api_vote_null_option_counterexample :
    api_vote (some (Json.obj [("option", Json.null)])) ⟨false, [], []⟩ =
      (ApiResp.serverError, ⟨false, [], []⟩) ∧
    ApiResp.serverError ≠ ApiResp.okStatus ∧
    ApiResp.serverError.status = 500 :=
  ⟨rfl, by decide, rfl⟩

/-- C2 (amended): a body that is absent, not valid JSON, a falsy JSON value
or a JSON object without key `option` gets HTTP 400 with the
`option required` error body and no vote is inserted; a JSON object whose
`option` key holds a string gets HTTP 200 `ok` with the vote inserted; a
JSON object whose `option` key holds `null` hits the `NOT NULL` constraint
and surfaces as HTTP 500 with no vote inserted. -/
theorem api_vote_responses (st : St) :
    api_vote none st = (ApiResp.badRequest, st) ∧
    (∀ d : Json, jsonTruthy d = false →
        api_vote (some d) st = (ApiResp.badRequest, st)) ∧
    (∀ kvs : List (String × Json), kvs.lookup "option" = none →
        api_vote (some (Json.obj kvs)) st = (ApiResp.badRequest, st)) ∧
    (∀ (kvs : List (String × Json)) (s : String),
        kvs.lookup "option" = some (Json.str s) →
        ∃ st' : St, api_vote (some (Json.obj kvs)) st = (ApiResp.okStatus, st') ∧
          insert_vote (Json.str s) st = Except.ok st') ∧
    (∀ kvs : List (String × Json), kvs.lookup "option" = some Json.null →
        api_vote (some (Json.obj kvs)) st = (ApiResp.serverError, st)) := by
  refine ⟨rfl, ?_, ?_, ?_, ?_⟩
  · intro d hd
    simp [api_vote, hd]
  · intro kvs h
    cases kvs with
    | nil => rfl
    | cons a t =>
      have hany := lookup_none_any_false (a :: t) "option" h
      simp [api_vote, jsonTruthy, jsonContains, hany]
  · intro kvs s h
    cases kvs with
    | nil => simp [List.lookup] at h
    | cons a t =>
      have hany := lookup_some_any_true (a :: t) "option" (Json.str s) h
      refine ⟨_, ?_, insert_vote_str s st⟩
      simp [api_vote, jsonTruthy, jsonContains, hany, jsonSubscript, h,
        insert_vote_str s st]
  · intro kvs h
    cases kvs with
    | nil => simp [List.lookup] at h
    | cons a t =>
      have hany := lookup_some_any_true (a :: t) "option" Json.null h
      have hins : insert_vote Json.null st =
          Except.error DbError.notNullViolation := by
        cases hf : st.usePostgres <;> simp [insert_vote, sqliteBind, pgBind, hf]
      simp [api_vote, jsonTruthy, jsonContains, hany, jsonSubscript, h, hins]

/-- Witness for C2 (amended): a well-formed vote body on the empty store. -/
theorem api_vote_responses_witness :
    api_vote (some (Json.obj [("option", Json.str "AWS")])) ⟨false, [], []⟩ =
      (ApiResp.okStatus, ⟨false, ["AWS"], []⟩) := by
  obtain ⟨st', h1, h2⟩ :=
    (api_vote_responses ⟨false, [], []⟩).2.2.2.1 [("option", Json.str "AWS")] "AWS" rfl
  rw [insert_vote_str] at h2
  simp only [Except.ok.injEq] at h2
  rw [h1, ← h2]
  rfl

/-- C3 counterexample: the JSON endpoint accepts `option` equal to the empty
string and stores an empty candidate, so non-empty enforcement is not done
by every caller of `insert_vote`. -/
theorem api_vote_empty_candidate_counterexample :
    api_vote (some (Json.obj [("option", Json.str "")])) ⟨false, [], []⟩ =
      (ApiResp.okStatus, ⟨false, [""], []⟩) ∧
    ("" : String) ∈ (⟨false, [""], []⟩ : St).activeDb :=
  ⟨rfl, by decide⟩

/-- C3 (amended): non-empty-string enforcement is performed by the form
endpoints (`POST /` and `POST /vote`), which therefore preserve the
all-candidates-non-empty invariant in both stores; the JSON endpoint checks
only that key `option` is present, so it can store an empty candidate. -/
theorem form_endpoints_nonempty (opt : Option String) (st : St)
    (hs : ∀ c ∈ st.sqliteDb, c ≠ "") (hp : ∀ c ∈ st.pgDb, c ≠ "") :
    (∀ c ∈ ((index_post opt st).2).sqliteDb, c ≠ "") ∧
    (∀ c ∈ ((index_post opt st).2).pgDb, c ≠ "") ∧
    (∀ c ∈ ((vote_post opt st).2).sqliteDb, c ≠ "") ∧
    (∀ c ∈ ((vote_post opt st).2).pgDb, c ≠ "") := by
  cases opt with
  | none => exact ⟨hs, hp, hs, hp⟩
  | some p =>
    by_cases hep : p = ""
    · subst hep
      exact ⟨hs, hp, hs, hp⟩
    · have hbne : (p != "") = true := by simp [hep]
      have hidx : (index_post (some p) st).2 =
          if st.usePostgres then { st with pgDb := st.pgDb ++ [p] }
          else { st with sqliteDb := st.sqliteDb ++ [p] } := by
        simp [index_post, hbne, insert_vote_str]
      have hvote : (vote_post (some p) st).2 =
          if st.usePostgres then { st with pgDb := st.pgDb ++ [p] }
          else { st with sqliteDb := st.sqliteDb ++ [p] } := by
        simp [vote_post, hbne, insert_vote_str]
      rw [hidx, hvote]
      cases hflag : st.usePostgres with
      | false =>
        simp only [hflag, Bool.false_eq_true, if_false]
        exact ⟨append_nonempty st.sqliteDb p hs hep, hp,
          append_nonempty st.sqliteDb p hs hep, hp⟩
      | true =>
        simp only [hflag, if_true]
        exact ⟨hs, append_nonempty st.pgDb p hp hep,
          hs, append_nonempty st.pgDb p hp hep⟩

/-- Witness for C3 (amended): a concrete non-empty form submission. -/
theorem form_endpoints_nonempty_witness :
    ((index_post (some "AWS") (⟨false, [], []⟩ : St)).2).sqliteDb = ["AWS"] ∧
    ("AWS" : String) ≠ "" :=
  ⟨by decide,
   (form_endpoints_nonempty (some "AWS") ⟨false, [], []⟩ (by simp) (by simp)).1
     "AWS" (by decide)⟩
